import Mathlib

/-!
Verification of the optimus backend activities against their specification.

Each definition below is a shallow embedding of one Python function from
src/backend/activities (the embedded file and line range are given in the
doc comment).  Conventions used throughout:

-  Python integers are modelled as Nat (token amounts, vote counts, weights
   are nonnegative) or as Int where the source can produce negative values;
   Python floor division (the // operator) on a positive divisor is Int.ediv.
-  Python float arithmetic is modelled as exact rational arithmetic over
   Rat; the int(...) truncation of a nonnegative value is the floor.
-  Database rows are modelled as explicit structures, the database itself as
   explicit state passed in and out.
-  External transfer calls (MovementService) are modelled by recording the
   issued transfer requests and, where the loop behaviour on transfer
   failure matters, by a Bool-valued oracle giving the outcome of the k-th
   transfer attempt.
-  Functions of this repository that live outside src/backend/activities
   (the services package) are modelled from the spec; their doc comments
   say so explicitly.
-/

namespace loan_activities

/-- Result dictionary of count_votes. -/
structure VoteCount where
  yes_votes : ℕ
  no_votes : ℕ
  total_votes : ℕ
  supermajority_reached : Bool
deriving Repr, DecidableEq

/-- Embeds count_votes (src/backend/activities/loan_activities.py, lines 55-112):
total_votes = yes_votes + no_votes and
supermajority_reached = yes_votes > total_votes / 2 if total_votes > 0 else False.
The Python float division total_votes / 2 is modelled as exact rational division. -/
def count_votes (yes_votes no_votes : ℕ) : VoteCount :=
  let total_votes := yes_votes + no_votes
  let supermajority_reached : Bool :=
    if 0 < total_votes then decide ((yes_votes : ℚ) > (total_votes : ℚ) / 2) else false
  ⟨yes_votes, no_votes, total_votes, supermajority_reached⟩

end loan_activities

namespace bnpl_access_activities

/-- Result dictionary of count_application_votes. -/
structure ApplicationVoteCount where
  yes_votes : ℕ
  no_votes : ℕ
  total_votes : ℕ
  approved : Bool
deriving Repr, DecidableEq

/-- Embeds count_application_votes (src/backend/activities/bnpl_access_activities.py,
lines 215-254): total_votes = yes_votes + no_votes; approved = False unless
total_votes > 0, in which case yes_percentage = (yes_votes / total_votes) * 100 and
approved = yes_percentage > 50.  Python float arithmetic modelled as exact rationals. -/
def count_application_votes (yes_votes no_votes : ℕ) : ApplicationVoteCount :=
  let total_votes := yes_votes + no_votes
  let approved : Bool :=
    if 0 < total_votes then
      decide (((yes_votes : ℚ) / (total_votes : ℚ)) * 100 > 50)
    else false
  ⟨yes_votes, no_votes, total_votes, approved⟩

end bnpl_access_activities

lemma rat_gt_half_iff (y t : ℕ) : ((y : ℚ) > (t : ℚ) / 2) ↔ t < 2 * y := by
  rw [gt_iff_lt, div_lt_iff₀ (by norm_num : (0 : ℚ) < 2)]
  constructor
  · intro h
    have h2 : (t : ℚ) < 2 * y := by linarith
    exact_mod_cast h2
  · intro h
    have h2 : (t : ℚ) < 2 * y := by exact_mod_cast h
    linarith

lemma rat_pct_gt_fifty_iff (y t : ℕ) (ht : (0 : ℚ) < t) :
    ((y : ℚ) / t * 100 > 50) ↔ t < 2 * y := by
  rw [div_mul_eq_mul_div, gt_iff_lt, lt_div_iff₀ ht]
  constructor
  · intro h
    have h2 : (t : ℚ) < 2 * y := by linarith
    exact_mod_cast h2
  · intro h
    have h2 : (t : ℚ) < 2 * y := by exact_mod_cast h
    linarith

lemma count_votes_super (y n : ℕ) :
    (loan_activities.count_votes y n).supermajority_reached = decide (y + n < 2 * y) := by
  unfold loan_activities.count_votes
  by_cases h : 0 < y + n
  · simp only [h, if_true]
    rw [decide_eq_decide]
    exact rat_gt_half_iff y (y + n)
  · have hy : y = 0 := by omega
    have hn : n = 0 := by omega
    subst hy; subst hn
    simp

lemma count_application_votes_approved (y n : ℕ) :
    (bnpl_access_activities.count_application_votes y n).approved = decide (y + n < 2 * y) := by
  unfold bnpl_access_activities.count_application_votes
  by_cases h : 0 < y + n
  · simp only [h, if_true]
    rw [decide_eq_decide]
    exact rat_pct_gt_fifty_iff y (y + n) (by exact_mod_cast h)
  · have hy : y = 0 := by omega
    have hn : n = 0 := by omega
    subst hy; subst hn
    simp

/-- C1: for every finite set of yes/no ballots, both the loan tally (count_votes)
and the BNPL-application tally (count_application_votes) return approved = true
exactly when yes_votes > total_votes / 2 with total_votes = yes_votes + no_votes
(over the integers: total_votes < 2 * yes_votes); in particular approved = false
when total_votes = 0 and on every exact tie; yes = 6, no = 5 approves and
yes = 5, no = 5 rejects. -/
theorem C1_vote_tally_supermajority (y n : ℕ) :
    ((loan_activities.count_votes y n).supermajority_reached = decide (y + n < 2 * y))
    ∧ ((bnpl_access_activities.count_application_votes y n).approved
        = (loan_activities.count_votes y n).supermajority_reached)
    ∧ ((loan_activities.count_votes 0 0).supermajority_reached = false)
    ∧ ((loan_activities.count_votes y y).supermajority_reached = false)
    ∧ ((loan_activities.count_votes 6 5).supermajority_reached = true)
    ∧ ((loan_activities.count_votes 5 5).supermajority_reached = false)
    ∧ ((bnpl_access_activities.count_application_votes 6 5).approved = true)
    ∧ ((bnpl_access_activities.count_application_votes 5 5).approved = false) := by
  refine ⟨count_votes_super y n, ?_, ?_, ?_, ?_, ?_, ?_, ?_⟩
  · rw [count_votes_super, count_application_votes_approved]
  · rw [count_votes_super]
    decide
  · rw [count_votes_super]
    simp only [decide_eq_false_iff_not]
    omega
  · rw [count_votes_super]
    decide
  · rw [count_votes_super]
    decide
  · rw [count_application_votes_approved]
    decide
  · rw [count_application_votes_approved]
    decide

namespace bnpl_activities

/-- Result dictionary of calculate_bnpl_installments. -/
structure InstallmentPlan where
  installment_1 : ℤ
  installment_2 : ℤ
  installment_3 : ℤ
  total : ℤ
deriving Repr, DecidableEq

/-- Embeds calculate_bnpl_installments (src/backend/activities/bnpl_activities.py,
lines 73-105): installment_amount = amount_token // 3, remainder = amount_token % 3,
installment_1 = installment_amount + remainder, installments 2 and 3 equal
installment_amount; raises if the recomputed total differs from amount_token.
Python floor division and modulo on the positive divisor 3 coincide with the
Euclidean division / and % of ℤ. -/
def calculate_bnpl_installments (amount_token : ℤ) : Except String InstallmentPlan :=
  let installment_amount := amount_token / 3
  let remainder := amount_token % 3
  let installment_1 := installment_amount + remainder
  let installment_2 := installment_amount
  let installment_3 := installment_amount
  let total := installment_1 + installment_2 + installment_3
  if total ≠ amount_token then .error "Installment calculation error"
  else .ok ⟨installment_1, installment_2, installment_3, total⟩

end bnpl_activities

namespace repayment_schedule_service

/-- Modelled from the spec: RepaymentScheduleService.create_repayment_schedule
(services/repayment_schedule_service.py) is not under src/.  Spec section 4.4:
base = principal div n, remainder = principal mod n; amount_1 = base + remainder,
all other amounts equal base. -/
def schedule (principal n : ℕ) : List ℕ :=
  (principal / n + principal % n) :: List.replicate (n - 1) (principal / n)

end repayment_schedule_service

lemma calculate_bnpl_installments_ok (a : ℤ) :
    bnpl_activities.calculate_bnpl_installments a
      = .ok ⟨a / 3 + a % 3, a / 3, a / 3, a⟩ := by
  have htot : a / 3 + a % 3 + a / 3 + a / 3 = a := by
    have h := Int.ediv_add_emod a 3
    linarith
  simp [bnpl_activities.calculate_bnpl_installments, htot]

lemma schedule_sum (p n : ℕ) (h : 1 ≤ n) :
    (repayment_schedule_service.schedule p n).sum = p := by
  unfold repayment_schedule_service.schedule
  obtain ⟨m, rfl⟩ : ∃ m, n = m + 1 := ⟨n - 1, by omega⟩
  have hd : m + 1 - 1 = m := by omega
  rw [hd, List.sum_cons, List.sum_replicate, smul_eq_mul]
  have hmod := Nat.div_add_mod p (m + 1)
  have hexp : (m + 1) * (p / (m + 1)) = m * (p / (m + 1)) + p / (m + 1) := by ring
  omega

/-- C2: for every principal and every installment count n with n >= 1, the schedule
is base + remainder followed by n - 1 copies of base and its amounts sum to the
principal exactly; the code under src fixes n = 3 in calculate_bnpl_installments,
whose consistency-check error branch is unreachable and which agrees with the
general schedule at n = 3; principal 100 with n = 3 yields 34, 33, 33. -/
theorem C2_installment_schedule (a : ℤ) (p n : ℕ) (h : 1 ≤ n) :
    (bnpl_activities.calculate_bnpl_installments a
      = .ok ⟨a / 3 + a % 3, a / 3, a / 3, a⟩)
    ∧ ((repayment_schedule_service.schedule p n).sum = p)
    ∧ ((repayment_schedule_service.schedule p n).length = n)
    ∧ (repayment_schedule_service.schedule p 3
        = [p / 3 + p % 3, p / 3, p / 3])
    ∧ (bnpl_activities.calculate_bnpl_installments 100 = .ok ⟨34, 33, 33, 100⟩)
    ∧ (repayment_schedule_service.schedule 100 3 = [34, 33, 33]) := by
  refine ⟨calculate_bnpl_installments_ok a, schedule_sum p n h, ?_, ?_, ?_, ?_⟩
  · unfold repayment_schedule_service.schedule
    simp
    omega
  · rfl
  · rw [calculate_bnpl_installments_ok 100]
    rfl
  · rfl

/-- Witness for C2 at a = 100, p = 100, n = 3. -/
theorem C2_installment_schedule_witness :
    (bnpl_activities.calculate_bnpl_installments 100 = .ok ⟨34, 33, 33, 100⟩)
    ∧ ((repayment_schedule_service.schedule 100 3).sum = 100) :=
  ⟨(C2_installment_schedule 100 100 3 (by decide)).2.2.2.2.1,
   (C2_installment_schedule 100 100 3 (by decide)).2.1⟩

namespace bnpl_activities

/-- A DAO member as returned by the get_members contract call. -/
structure DaoMember where
  address : String
  voting_power : ℕ
deriving Repr, DecidableEq

/-- One entry of the distributions list built by distribute_bnpl_late_fees. -/
structure FeeDistribution where
  member_address : String
  voting_power : ℕ
  share_amount : ℕ
deriving Repr, DecidableEq

/-- Result dictionary of distribute_bnpl_late_fees. -/
structure LateFeesResult where
  late_fee_amount : ℕ
  total_distributed : ℕ
  distributions : List FeeDistribution
  members_count : ℕ
  distributed : Bool
  error : Option String
deriving Repr, DecidableEq

/-- Embeds the per-member share of distribute_bnpl_late_fees (bnpl_activities.py,
line 374): member_share = int((voting_power / total_voting_power) * late_fee_amount).
Python float arithmetic is modelled as exact rationals; int truncation of a
nonnegative value is the floor. -/
def member_share (voting_power total_voting_power late_fee_amount : ℕ) : ℕ :=
  (Int.floor (((voting_power : ℚ) / (total_voting_power : ℚ))
    * (late_fee_amount : ℚ))).toNat

/-- Embeds the member loop of distribute_bnpl_late_fees (bnpl_activities.py,
lines 364-401): members with voting power 0 or computed share 0 are skipped; for
the others a transfer is attempted, and a failing transfer is caught and skipped
(continue), so the remaining members are still processed.  Returns the pair of
total_distributed and the distributions list; the k-th attempted transfer
succeeds if transfer_ok k. -/
def late_fees_loop (total_voting_power late_fee_amount : ℕ) (transfer_ok : ℕ → Bool) :
    List DaoMember → ℕ → ℕ × List FeeDistribution
  | [], _ => (0, [])
  | member :: rest, k =>
    if member.voting_power = 0 then
      late_fees_loop total_voting_power late_fee_amount transfer_ok rest k
    else
      let share := member_share member.voting_power total_voting_power late_fee_amount
      if share = 0 then
        late_fees_loop total_voting_power late_fee_amount transfer_ok rest k
      else if transfer_ok k then
        let p := late_fees_loop total_voting_power late_fee_amount transfer_ok rest (k + 1)
        (p.1 + share, ⟨member.address, member.voting_power, share⟩ :: p.2)
      else
        late_fees_loop total_voting_power late_fee_amount transfer_ok rest (k + 1)

/-- Embeds distribute_bnpl_late_fees (bnpl_activities.py, lines 307-416): with no
members, or with total voting power 0, it returns an error-flagged result with no
distributions; otherwise it runs the member loop and reports the distributions. -/
def distribute_bnpl_late_fees (late_fee_amount : ℕ) (dao_members : List DaoMember)
    (transfer_ok : ℕ → Bool) : LateFeesResult :=
  if dao_members.isEmpty then
    ⟨late_fee_amount, 0, [], 0, false, some "No members found"⟩
  else
    let total_voting_power := (dao_members.map DaoMember.voting_power).sum
    if total_voting_power = 0 then
      ⟨late_fee_amount, 0, [], dao_members.length, false, some "No voting power"⟩
    else
      let p := late_fees_loop total_voting_power late_fee_amount transfer_ok dao_members 0
      ⟨late_fee_amount, p.1, p.2, p.2.length, true, none⟩

end bnpl_activities

namespace distribution_spec

/-- A weighted share, the transient input of the spec distribution engine. -/
structure WeightedShare where
  party : String
  weight : ℕ
deriving Repr, DecidableEq

/-- One payout of the spec distribution engine. -/
structure Payout where
  party : String
  amount : ℕ
deriving Repr, DecidableEq

/-- C3 spec-side definition, written from the words of the spec (section 4.3): if
total = 0 or the weight sum is 0 the distribution is empty; otherwise each party
with weight > 0 receives amount = floor(weight / sum(weight) * total), which over
the integers is weight * total / weight_sum, and parties whose computed share is 0
are omitted from the result. -/
def distribute (total : ℕ) (shares : List WeightedShare) : List Payout :=
  let weight_sum := (shares.map WeightedShare.weight).sum
  if total = 0 ∨ weight_sum = 0 then []
  else
    shares.filterMap fun s =>
      if 0 < s.weight ∧ 0 < s.weight * total / weight_sum then
        some ⟨s.party, s.weight * total / weight_sum⟩
      else none

end distribution_spec

lemma floor_share_eq (v T L : ℕ) :
    (Int.floor (((v : ℚ) / (T : ℚ)) * (L : ℚ))).toNat = v * L / T := by
  rw [div_mul_eq_mul_div, Int.floor_toNat, ← Nat.cast_mul, Nat.floor_div_nat,
    Nat.floor_natCast]

lemma member_share_eq (v T L : ℕ) :
    bnpl_activities.member_share v T L = v * L / T :=
  floor_share_eq v T L

lemma late_fees_loop_map (T L : ℕ) (ms : List bnpl_activities.DaoMember) (k : ℕ) :
    ((bnpl_activities.late_fees_loop T L (fun _ => true) ms k).2.map
        (fun d => distribution_spec.Payout.mk d.member_address d.share_amount))
      = ms.filterMap (fun m =>
          if 0 < m.voting_power ∧ 0 < m.voting_power * L / T then
            some ⟨m.address, m.voting_power * L / T⟩
          else none) := by
  induction ms generalizing k with
  | nil => rfl
  | cons m rest ih =>
    by_cases h0 : m.voting_power = 0
    · rw [bnpl_activities.late_fees_loop]
      simp [h0, ih k]
    · by_cases hs : m.voting_power * L / T = 0
      · have hshare : bnpl_activities.member_share m.voting_power T L = 0 := by
          rw [member_share_eq]; exact hs
        rw [bnpl_activities.late_fees_loop]
        simp [h0, hshare, hs, ih k]
      · have hshare : bnpl_activities.member_share m.voting_power T L
            = m.voting_power * L / T := member_share_eq m.voting_power T L
        rw [bnpl_activities.late_fees_loop]
        simp only [h0, if_false, hshare, hs, if_true]
        simp [Nat.pos_of_ne_zero h0, Nat.pos_of_ne_zero hs, ih (k + 1)]

lemma late_fees_loop_zero_total (T : ℕ) (ms : List bnpl_activities.DaoMember) (k : ℕ) :
    bnpl_activities.late_fees_loop T 0 (fun _ => true) ms k = (0, []) := by
  induction ms generalizing k with
  | nil => rfl
  | cons m rest ih =>
    rw [bnpl_activities.late_fees_loop]
    by_cases h0 : m.voting_power = 0
    · simp [h0, ih k]
    · have hshare : bnpl_activities.member_share m.voting_power T 0 = 0 := by
        rw [member_share_eq]
        simp
      simp [h0, hshare, ih k]

/-- C3: for every distribution total and member list, the late-fee distribution
built by distribute_bnpl_late_fees allocates to each party with positive voting
power the amount floor(voting_power / total_voting_power * late_fee_amount),
equal over the integers to voting_power * late_fee_amount / total_voting_power,
omits parties whose computed share is 0, and never redistributes the truncation
remainder: its distributions list coincides with the spec distribution engine;
in particular 1000 over weights 30 and 70 gives exactly 300 and 700. -/
theorem C3_proportional_distribution (L : ℕ) (ms : List bnpl_activities.DaoMember) :
    ((bnpl_activities.distribute_bnpl_late_fees L ms (fun _ => true)).distributions.map
        (fun d => distribution_spec.Payout.mk d.member_address d.share_amount)
      = distribution_spec.distribute L
          (ms.map (fun m => ⟨m.address, m.voting_power⟩)))
    ∧ (bnpl_activities.distribute_bnpl_late_fees 1000
        [⟨"A", 30⟩, ⟨"B", 70⟩] (fun _ => true)
      = ⟨1000, 1000, [⟨"A", 30, 300⟩, ⟨"B", 70, 700⟩], 2, true, none⟩) := by
  constructor
  · have hw : ((ms.map (fun m => (⟨m.address, m.voting_power⟩ :
        distribution_spec.WeightedShare))).map distribution_spec.WeightedShare.weight).sum
        = (ms.map bnpl_activities.DaoMember.voting_power).sum := by
      simp only [List.map_map, Function.comp_def]
    simp only [bnpl_activities.distribute_bnpl_late_fees, distribution_spec.distribute, hw]
    by_cases hempty : ms.isEmpty
    · have hnil : ms = [] := by
        cases ms with
        | nil => rfl
        | cons a l => simp [List.isEmpty] at hempty
      subst hnil
      simp
    · simp only [hempty, Bool.false_eq_true, if_false]
      by_cases hT : (ms.map bnpl_activities.DaoMember.voting_power).sum = 0
      · simp [hT]
      · simp only [hT, or_false, if_false]
        rw [late_fees_loop_map, List.filterMap_map]
        by_cases hL : L = 0
        · subst hL
          simp
        · simp only [hL, false_or, if_false]
          congr 1
  · have h30 : bnpl_activities.member_share 30 100 1000 = 300 := by
      rw [member_share_eq]
    have h70 : bnpl_activities.member_share 70 100 1000 = 700 := by
      rw [member_share_eq]
    simp [bnpl_activities.distribute_bnpl_late_fees, bnpl_activities.late_fees_loop,
      h30, h70]

namespace interest_distribution_service

/-- Modelled from the spec: InterestDistributionService
(services/interest_distribution_service.py) is not under src/.  Spec section 4.3
uses the same distribution engine for the interest payout, with the member
investment as weight: share = floor(weight / sum(weight) * total); the service
splits this into get_member_voting_power_percentage and
calculate_member_interest_share.  Python float arithmetic modelled as exact
rationals; int truncation of a nonnegative value is the floor. -/
def calculate_member_interest_share
    (member_investment total_investment total_interest : ℕ) : ℕ :=
  (Int.floor (((member_investment : ℚ) / (total_investment : ℚ))
    * (total_interest : ℚ))).toNat

end interest_distribution_service

lemma interest_share_eq (v T L : ℕ) :
    interest_distribution_service.calculate_member_interest_share v T L = v * L / T :=
  floor_share_eq v T L

namespace loan_activities

/-- Result dictionary of distribute_loan_interest. -/
structure InterestResult where
  total_interest : ℕ
  distributions : List (String × ℕ)
  members_paid : ℕ
deriving Repr, DecidableEq

/-- Embeds the member loop of distribute_loan_interest (loan_activities.py,
lines 269-309): iterates over the members, computes each share, skips members
whose share is 0 and issues a transfer for the others.  There is no try/except
around transfer_funds, so a failing transfer propagates as an exception that
aborts the loop; the returned pair is the recorded distributions together with
the error of the aborting exception, if any.  The k-th attempted transfer
succeeds if transfer_ok k. -/
def interest_loop (total_investment total_interest : ℕ) (transfer_ok : ℕ → Bool) :
    List (String × ℕ) → ℕ → List (String × ℕ) × Option String
  | [], _ => ([], none)
  | member :: rest, k =>
    let share := interest_distribution_service.calculate_member_interest_share
      member.2 total_investment total_interest
    if share = 0 then interest_loop total_investment total_interest transfer_ok rest k
    else if transfer_ok k then
      let p := interest_loop total_investment total_interest transfer_ok rest (k + 1)
      ((member.1, share) :: p.1, p.2)
    else ([], some "transfer failed")

/-- Embeds distribute_loan_interest (loan_activities.py, lines 233-335): returns
the empty distribution when total_interest = 0; raises ValueError when the total
investment (sum of the member investments) is 0; otherwise runs the member loop
and, if the loop aborted with an exception, re-raises it. -/
def distribute_loan_interest (total_interest : ℕ) (members : List (String × ℕ))
    (transfer_ok : ℕ → Bool) : Except String InterestResult :=
  if total_interest = 0 then .ok ⟨0, [], 0⟩
  else
    let total_investment := (members.map Prod.snd).sum
    if total_investment = 0 then
      .error "Total investment is zero, cannot distribute interest"
    else
      let p := interest_loop total_investment total_interest transfer_ok members 0
      match p.2 with
      | some e => .error e
      | none => .ok ⟨total_interest, p.1, p.1.length⟩

end loan_activities

/-- C5 counterexample: the claim says a distribution request whose weight sum is
0 returns an empty distribution and does not fail with an error, for the
interest payout in particular; but distribute_loan_interest with nonzero
interest 5 and an empty member list (weight sum 0) raises ValueError instead. -/
theorem C5_zero_weights_counterexample :
    loan_activities.distribute_loan_interest 5 [] (fun _ => true)
      = .error "Total investment is zero, cannot distribute interest" := rfl

lemma late_fees_loop_zero_total_any (T : ℕ) (g : ℕ → Bool)
    (ms : List bnpl_activities.DaoMember) (k : ℕ) :
    bnpl_activities.late_fees_loop T 0 g ms k = (0, []) := by
  induction ms generalizing k with
  | nil => rfl
  | cons m rest ih =>
    rw [bnpl_activities.late_fees_loop]
    by_cases h0 : m.voting_power = 0
    · simp [h0, ih k]
    · have hshare : bnpl_activities.member_share m.voting_power T 0 = 0 := by
        rw [member_share_eq]
        simp
      simp [h0, hshare, ih k]

/-- C5 as amended: only a zero total is a no-op that returns an empty
distribution without error.  For the interest payout, total_interest = 0 returns
the empty distribution, but a nonzero total with weight sum 0 raises ValueError;
for the late-fee redistribution, an empty member list or a zero total voting
power produces an error-flagged result with no distributions (not a plain empty
success), while a zero late-fee total with nonzero voting power distributes
nothing and reports no error. -/
theorem C5_zero_distribution_amended (total : ℕ) (members : List (String × ℕ))
    (L : ℕ) (ms : List bnpl_activities.DaoMember) (f g : ℕ → Bool) :
    (total = 0 → loan_activities.distribute_loan_interest total members f
      = .ok ⟨0, [], 0⟩)
    ∧ (total ≠ 0 → (members.map Prod.snd).sum = 0 →
        loan_activities.distribute_loan_interest total members f
          = .error "Total investment is zero, cannot distribute interest")
    ∧ (ms = [] → bnpl_activities.distribute_bnpl_late_fees L ms g
        = ⟨L, 0, [], 0, false, some "No members found"⟩)
    ∧ (ms ≠ [] → (ms.map bnpl_activities.DaoMember.voting_power).sum = 0 →
        bnpl_activities.distribute_bnpl_late_fees L ms g
          = ⟨L, 0, [], ms.length, false, some "No voting power"⟩)
    ∧ ((ms.map bnpl_activities.DaoMember.voting_power).sum ≠ 0 →
        bnpl_activities.distribute_bnpl_late_fees 0 ms g
          = ⟨0, 0, [], 0, true, none⟩) := by
  refine ⟨?_, ?_, ?_, ?_, ?_⟩
  · intro h
    subst h
    rfl
  · intro h hsum
    simp [loan_activities.distribute_loan_interest, h, hsum]
  · intro h
    subst h
    rfl
  · intro h hsum
    have hne : ms.isEmpty = false := by
      cases ms with
      | nil => exact absurd rfl h
      | cons a l => rfl
    simp [bnpl_activities.distribute_bnpl_late_fees, hne, hsum]
  · intro hsum
    have hne : ms.isEmpty = false := by
      cases ms with
      | nil => simp at hsum
      | cons a l => rfl
    simp [bnpl_activities.distribute_bnpl_late_fees, hne, hsum,
      late_fees_loop_zero_total_any]

/-- Witness for C5 as amended, instantiating every branch at concrete inputs. -/
theorem C5_zero_distribution_amended_witness :
    (loan_activities.distribute_loan_interest 0 [("A", 1)] (fun _ => true)
      = .ok ⟨0, [], 0⟩)
    ∧ (loan_activities.distribute_loan_interest 5 [] (fun _ => true)
      = .error "Total investment is zero, cannot distribute interest")
    ∧ (bnpl_activities.distribute_bnpl_late_fees 7 [] (fun _ => true)
      = ⟨7, 0, [], 0, false, some "No members found"⟩)
    ∧ (bnpl_activities.distribute_bnpl_late_fees 7 [⟨"A", 0⟩] (fun _ => true)
      = ⟨7, 0, [], 1, false, some "No voting power"⟩)
    ∧ (bnpl_activities.distribute_bnpl_late_fees 0 [⟨"A", 2⟩] (fun _ => true)
      = ⟨0, 0, [], 0, true, none⟩) :=
  ⟨(C5_zero_distribution_amended 0 [("A", 1)] 7 [] (fun _ => true) (fun _ => true)).1 rfl,
   (C5_zero_distribution_amended 5 [] 7 [] (fun _ => true) (fun _ => true)).2.1
     (by decide) rfl,
   (C5_zero_distribution_amended 5 [] 7 [] (fun _ => true) (fun _ => true)).2.2.1 rfl,
   (C5_zero_distribution_amended 5 [] 7 [⟨"A", 0⟩] (fun _ => true)
     (fun _ => true)).2.2.2.1 (by decide) rfl,
   (C5_zero_distribution_amended 5 [] 0 [⟨"A", 2⟩] (fun _ => true)
     (fun _ => true)).2.2.2.2 (by decide)⟩

/-- C8 counterexample: the claim says a failing per-party transfer does not abort
distribution to the remaining parties for every distribution operation; but in
distribute_loan_interest, when the transfer for the first member A fails while B
would succeed, the activity aborts with the exception and no distribution to the
remaining member B is processed or reported. -/
theorem C8_abort_counterexample :
    (loan_activities.distribute_loan_interest 100 [("A", 50), ("B", 50)]
        (fun k => decide (0 < k))
      = .error "transfer failed")
    ∧ ((loan_activities.interest_loop 100 100 (fun k => decide (0 < k))
        [("A", 50), ("B", 50)] 0).1 = []) := by
  constructor
  · simp [loan_activities.distribute_loan_interest, loan_activities.interest_loop,
      interest_share_eq]
  · simp [loan_activities.interest_loop, interest_share_eq]

/-- C8 as amended: in the late-fee redistribution the failure of one transfer is
caught and that member skipped, with the loop continuing through the remaining
members; in the interest distribution a failing transfer aborts the loop, so the
remaining members are not processed and the activity fails with the exception
instead of reporting a partial result. -/
theorem C8_failure_isolation_amended (T L W I k : ℕ) (f : ℕ → Bool)
    (m : bnpl_activities.DaoMember) (rest : List bnpl_activities.DaoMember)
    (addr : String) (inv : ℕ) (irest : List (String × ℕ))
    (hvp : m.voting_power * L / T ≠ 0) (hf : f k = false)
    (hinv : inv * I / W ≠ 0) :
    (bnpl_activities.late_fees_loop T L f (m :: rest) k
      = bnpl_activities.late_fees_loop T L f rest (k + 1))
    ∧ (loan_activities.interest_loop W I f ((addr, inv) :: irest) k
      = ([], some "transfer failed")) := by
  have h0 : m.voting_power ≠ 0 := by
    intro h
    rw [h] at hvp
    simp at hvp
  constructor
  · rw [bnpl_activities.late_fees_loop]
    have hshare : bnpl_activities.member_share m.voting_power T L ≠ 0 := by
      rw [member_share_eq]; exact hvp
    simp [h0, hshare, hf]
  · rw [loan_activities.interest_loop]
    have hshare : interest_distribution_service.calculate_member_interest_share
        inv W I ≠ 0 := by
      rw [interest_share_eq]; exact hinv
    simp [hshare, hf]

/-- Witness for C8 as amended at concrete members, shares and a failing first
transfer. -/
theorem C8_failure_isolation_amended_witness :
    (bnpl_activities.late_fees_loop 100 1000 (fun _ => false) [⟨"A", 50⟩] 0
      = bnpl_activities.late_fees_loop 100 1000 (fun _ => false) [] 1)
    ∧ (loan_activities.interest_loop 100 100 (fun _ => false) [("B", 50)] 0
      = ([], some "transfer failed")) :=
  C8_failure_isolation_amended 100 1000 100 100 0 (fun _ => false)
    ⟨"A", 50⟩ [] "B" 50 [] (by decide) rfl (by decide)

namespace loan_activities

/-- Lifecycle states of a loan (spec section 4.2). -/
inductive LoanStatus
  | Requested
  | VotingOpen
  | Approved
  | Rejected
  | Disbursed
  | Repaying
  | Completed
  | Defaulted
  | Liquidated
deriving Repr, DecidableEq

/-- A fund-transfer request issued to the Movement network. -/
structure Transfer where
  from_address : String
  to_address : String
  amount : ℕ
deriving Repr, DecidableEq

/-- The loan record together with the transfer requests issued so far. -/
structure LoanState where
  status : LoanStatus
  transfers : List Transfer
deriving Repr, DecidableEq

/-- Modelled from the spec: LoanService.disburse_loan (services/loan_service.py)
is not under src/; it marks the loan record as Disbursed. -/
def disburse_loan (st : LoanState) : LoanState :=
  { st with status := .Disbursed }

/-- Embeds disburse_funds (loan_activities.py, lines 115-148): calls
MovementService.transfer_funds from the DAO treasury to the borrower
unconditionally and then marks the loan disbursed.  The function performs no
check of the current loan status before issuing the transfer. -/
def disburse_funds (st : LoanState) (borrower_address : String) (amount : ℕ)
    (dao_id : String) : LoanState :=
  let st1 := { st with transfers := st.transfers ++ [⟨dao_id, borrower_address, amount⟩] }
  disburse_loan st1

end loan_activities

/-- C4: the claim says that re-invoking disbursement on a loan whose status is
already Disbursed issues no new fund-transfer request; the code issues the
transfer unconditionally, for every starting status and hence in particular for
an already-Disbursed loan, appending one more transfer request per invocation. -/
theorem C4_disburse_no_status_check (st : loan_activities.LoanState)
    (borrower dao : String) (amount : ℕ) :
    ((loan_activities.disburse_funds st borrower amount dao).transfers
      = st.transfers ++ [⟨dao, borrower, amount⟩])
    ∧ ((loan_activities.disburse_funds ⟨.Disbursed, [⟨"dao", "bob", 5⟩]⟩
        "bob" 5 "dao").transfers
      = [⟨"dao", "bob", 5⟩, ⟨"dao", "bob", 5⟩]) := by
  exact ⟨rfl, rfl⟩

namespace bnpl_activities

/-- Status of a BNPL installment payment record. -/
inductive PaymentStatus
  | Pending
  | Paid
  | Late
deriving Repr, DecidableEq

/-- A BNPLPayment database row (database/models.py, fields used by the
activities).  Time is measured in days. -/
structure BNPLPayment where
  installment_number : ℕ
  amount : ℕ
  due_date : ℤ
  status : PaymentStatus
  late_fee : ℕ
  paid_date : Option ℤ
deriving Repr, DecidableEq

/-- Embeds schedule_bnpl_installments (bnpl_activities.py, lines 146-205): reads
the wall clock (now = datetime.now) at creation time and creates the records for
installment 2 due in 30 days and installment 3 due in 60 days, with status
Pending and late_fee 0.  The offsets are the hardcoded timedeltas of the code;
no origin timestamp and no DAO payment terms are consulted. -/
def schedule_bnpl_installments (now : ℤ) (installment_2 installment_3 : ℕ) :
    BNPLPayment × BNPLPayment :=
  (⟨2, installment_2, now + 30, .Pending, 0, none⟩,
   ⟨3, installment_3, now + 60, .Pending, 0, none⟩)

/-- Result dictionary of apply_bnpl_late_fee. -/
structure LateFeeOutcome where
  late_fee_applied : Bool
  late_fee_amount : ℕ
deriving Repr, DecidableEq

/-- Embeds the fee formula of apply_bnpl_late_fee and track_bnpl_payment_status
(bnpl_activities.py, lines 278 and 521): late_fee = int(amount * 0.05); Python
float arithmetic modelled as exact rationals, int truncation of a nonnegative
value is the floor. -/
def five_percent_fee (amount : ℕ) : ℕ :=
  (Int.floor ((amount : ℚ) * (5 / 100))).toNat

/-- Embeds apply_bnpl_late_fee (bnpl_activities.py, lines 253-304): if the
payment status is Pending and the due date is strictly before now, the payment is
marked Late and late_fee = int(amount * 0.05) is stored; otherwise the payment is
left unchanged and no fee is applied. -/
def apply_bnpl_late_fee (payment : BNPLPayment) (now : ℤ) :
    BNPLPayment × LateFeeOutcome :=
  if payment.status = .Pending ∧ payment.due_date < now then
    let late_fee := five_percent_fee payment.amount
    ({ payment with status := .Late, late_fee := late_fee }, ⟨true, late_fee⟩)
  else
    (payment, ⟨false, 0⟩)

/-- Embeds track_bnpl_payment_status (bnpl_activities.py, lines 487-538): if the
payment status is Pending, the due date is strictly before now and no paid date
is recorded, the payment is marked Late with late_fee = int(amount * 0.05);
otherwise the record is left unchanged. -/
def track_bnpl_payment_status (payment : BNPLPayment) (now : ℤ) : BNPLPayment :=
  if payment.status = .Pending ∧ payment.due_date < now ∧ payment.paid_date = none then
    { payment with status := .Late, late_fee := five_percent_fee payment.amount }
  else
    payment

end bnpl_activities

namespace x402_activities

/-- Result dictionary of get_dao_payment_terms. -/
structure PaymentTerms where
  payment_period_days : ℕ
  num_installments : ℕ
  days_between_installments : ℕ
deriving Repr, DecidableEq

/-- Embeds get_dao_payment_terms (x402_activities.py, lines 355-403): raises when
the configured payment period or installment count is missing or zero, and
otherwise returns the terms with days_between_installments equal to
payment_period_days // num_installments (Python floor division on naturals). -/
def get_dao_payment_terms (payment_period_days num_installments : ℕ) :
    Except String PaymentTerms :=
  if payment_period_days = 0 ∨ num_installments = 0 then
    .error "DAO has not configured BNPL payment terms"
  else
    .ok ⟨payment_period_days, num_installments,
      payment_period_days / num_installments⟩

end x402_activities

/-- C6 counterexample: the claim says due dates are computed from the origin
timestamp rather than from the wall-clock time at creation, so two invocations
with the same (origin, period, n) produce identical schedules; but the schedule
depends on the clock reading at creation: invocations at day 0 and at day 1 with
identical installment data produce different due dates. -/
theorem C6_wall_clock_counterexample :
    (bnpl_activities.schedule_bnpl_installments 0 33 33).1.due_date
      ≠ (bnpl_activities.schedule_bnpl_installments 1 33 33).1.due_date := by
  decide

/-- C6 as amended: schedule_bnpl_installments computes the due dates from the
wall-clock time now at creation, with fixed offsets of 30 and 60 days for
installments 2 and 3 (so installments are spaced 30 days apart, independently of
the DAO-configured payment terms), and the schedule is deterministic only given
that clock reading; get_dao_payment_terms does compute
days_between_installments = payment_period_days / num_installments from the DAO
configuration, but schedule_bnpl_installments does not consult it. -/
theorem C6_schedule_wall_clock_amended (now : ℤ) (i2 i3 : ℕ) :
    ((bnpl_activities.schedule_bnpl_installments now i2 i3).1.due_date = now + 30)
    ∧ ((bnpl_activities.schedule_bnpl_installments now i2 i3).2.due_date = now + 60)
    ∧ ((bnpl_activities.schedule_bnpl_installments now i2 i3).2.due_date
        - (bnpl_activities.schedule_bnpl_installments now i2 i3).1.due_date = 30)
    ∧ ((bnpl_activities.schedule_bnpl_installments now i2 i3).1.status
        = .Pending)
    ∧ ((bnpl_activities.schedule_bnpl_installments now i2 i3).2.status
        = .Pending)
    ∧ (x402_activities.get_dao_payment_terms 90 3 = .ok ⟨90, 3, 30⟩)
    ∧ (x402_activities.get_dao_payment_terms 0 3
        = .error "DAO has not configured BNPL payment terms") := by
  refine ⟨rfl, rfl, ?_, rfl, rfl, rfl, rfl⟩
  show now + 60 - (now + 30) = 30
  ring

lemma five_percent_fee_eq (a : ℕ) :
    bnpl_activities.five_percent_fee a = a * 5 / 100 := by
  unfold bnpl_activities.five_percent_fee
  have h : (a : ℚ) * (5 / 100) = ((a * 5 : ℕ) : ℚ) / ((100 : ℕ) : ℚ) := by
    push_cast
    ring
  rw [h, Int.floor_toNat, Nat.floor_div_nat, Nat.floor_natCast]

/-- C7: an installment transitions Pending to Late exactly when now is past the
due date (and, for track_bnpl_payment_status, no paid date is recorded), at which
point the fee int(amount * 0.05) = amount * 5 / 100 is computed and stored once;
a payment already Late, or not yet due, or with a recorded paid date, is left
completely unchanged by both activities, so re-evaluation never recomputes or
compounds the fee. -/
theorem C7_late_fee_transition_idempotent (p : bnpl_activities.BNPLPayment)
    (now : ℤ) :
    (p.status = .Pending →
      (((bnpl_activities.apply_bnpl_late_fee p now).1.status
        = bnpl_activities.PaymentStatus.Late) ↔ p.due_date < now))
    ∧ (p.status = .Pending → p.due_date < now →
        (bnpl_activities.apply_bnpl_late_fee p now).1.late_fee = p.amount * 5 / 100
        ∧ (bnpl_activities.apply_bnpl_late_fee p now).2.late_fee_applied = true)
    ∧ (p.status = .Late →
        bnpl_activities.apply_bnpl_late_fee p now = (p, ⟨false, 0⟩))
    ∧ (p.status = .Pending → ¬ p.due_date < now →
        bnpl_activities.apply_bnpl_late_fee p now = (p, ⟨false, 0⟩))
    ∧ (p.status = .Pending → p.paid_date = none →
        (((bnpl_activities.track_bnpl_payment_status p now).status
          = bnpl_activities.PaymentStatus.Late) ↔ p.due_date < now))
    ∧ (p.status = .Pending → p.due_date < now → p.paid_date = none →
        (bnpl_activities.track_bnpl_payment_status p now).late_fee
          = p.amount * 5 / 100)
    ∧ (p.status = .Late → bnpl_activities.track_bnpl_payment_status p now = p)
    ∧ (p.paid_date ≠ none → bnpl_activities.track_bnpl_payment_status p now = p) := by
  refine ⟨?_, ?_, ?_, ?_, ?_, ?_, ?_, ?_⟩
  · intro hp
    unfold bnpl_activities.apply_bnpl_late_fee
    by_cases hd : p.due_date < now
    · simp [hp, hd]
    · simp [hp, hd]
  · intro hp hd
    unfold bnpl_activities.apply_bnpl_late_fee
    simp [hp, hd, five_percent_fee_eq]
  · intro hp
    unfold bnpl_activities.apply_bnpl_late_fee
    simp [hp]
  · intro hp hd
    unfold bnpl_activities.apply_bnpl_late_fee
    simp [hp, hd]
  · intro hp hpaid
    unfold bnpl_activities.track_bnpl_payment_status
    by_cases hd : p.due_date < now
    · simp [hp, hd, hpaid]
    · simp [hp, hd, hpaid]
  · intro hp hd hpaid
    unfold bnpl_activities.track_bnpl_payment_status
    simp [hp, hd, hpaid, five_percent_fee_eq]
  · intro hp
    unfold bnpl_activities.track_bnpl_payment_status
    simp [hp]
  · intro hpaid
    unfold bnpl_activities.track_bnpl_payment_status
    simp [hpaid]

/-- Witness for C7 at a pending overdue installment of amount 100 due day 10
seen at day 11, and at the same installment already marked Late. -/
theorem C7_late_fee_transition_idempotent_witness :
    ((bnpl_activities.apply_bnpl_late_fee ⟨2, 100, 10, .Pending, 0, none⟩ 11).1.late_fee
      = 100 * 5 / 100)
    ∧ (bnpl_activities.apply_bnpl_late_fee ⟨2, 100, 10, .Late, 5, none⟩ 11
      = (⟨2, 100, 10, .Late, 5, none⟩, ⟨false, 0⟩))
    ∧ (bnpl_activities.track_bnpl_payment_status ⟨2, 100, 10, .Late, 5, none⟩ 11
      = ⟨2, 100, 10, .Late, 5, none⟩) :=
  ⟨((C7_late_fee_transition_idempotent ⟨2, 100, 10, .Pending, 0, none⟩ 11).2.1
      rfl (by decide)).1,
   (C7_late_fee_transition_idempotent ⟨2, 100, 10, .Late, 5, none⟩ 11).2.2.1 rfl,
   (C7_late_fee_transition_idempotent ⟨2, 100, 10, .Late, 5, none⟩ 11).2.2.2.2.2.2.1
     rfl⟩

namespace risk_profile_service

/-- A scored event of the RiskProfile engine (spec section 4.5). -/
inductive RiskEvent
  | payment_participation
  | bnpl_on_time
  | bnpl_late
  | inactivity_decay
  | loan_rejected (penalty : ℕ)
deriving Repr, DecidableEq

/-- Modelled from the spec: RiskProfileService (services/risk_profile_service.py)
is not under src/.  Spec section 4.5 score delta table: +1 successful payment
participation, +2 on-time BNPL installment, -3 late BNPL installment, -2
inactivity decay, policy-defined penalty for a loan rejected by vote. -/
def delta : RiskEvent → ℤ
  | .payment_participation => 1
  | .bnpl_on_time => 2
  | .bnpl_late => -3
  | .inactivity_decay => -2
  | .loan_rejected penalty => -(penalty : ℤ)

/-- Modelled from the spec: score = max(0, score + delta) always
(spec section 4.5 floor invariant). -/
def apply_event (score : ℤ) (e : RiskEvent) : ℤ :=
  max 0 (score + delta e)

/-- Modelled from the spec: RiskProfileService.apply_decay applies the
inactivity-decay delta with the floor at 0. -/
def apply_decay (score : ℤ) : ℤ :=
  apply_event score .inactivity_decay

end risk_profile_service

lemma apply_event_nonneg (s : ℤ) (e : risk_profile_service.RiskEvent) :
    0 ≤ risk_profile_service.apply_event s e :=
  le_max_left 0 _

lemma foldl_apply_event_nonneg (events : List risk_profile_service.RiskEvent) :
    ∀ s0 : ℤ, 0 ≤ s0 → 0 ≤ events.foldl risk_profile_service.apply_event s0 := by
  induction events with
  | nil => intro s0 h; exact h
  | cons e rest ih =>
    intro s0 _
    exact ih (risk_profile_service.apply_event s0 e) (apply_event_nonneg s0 e)

lemma apply_decay_zero : risk_profile_service.apply_decay 0 = 0 := by
  unfold risk_profile_service.apply_decay risk_profile_service.apply_event
  rw [show (0 : ℤ) + risk_profile_service.delta .inactivity_decay = -2 from rfl]
  exact max_eq_left (by norm_num)

/-- C9: for every participant and every sequence of score-delta events, the
resulting score is never negative, because every update applies
score = max(0, score + delta); in particular decay applied at score 0 is a
no-op that leaves the score at 0 rather than producing a negative score. -/
theorem C9_risk_score_never_negative (s0 : ℤ)
    (events : List risk_profile_service.RiskEvent) (h : 0 ≤ s0) :
    (0 ≤ events.foldl risk_profile_service.apply_event s0)
    ∧ (risk_profile_service.apply_decay 0 = 0)
    ∧ (∀ s : ℤ, 0 ≤ risk_profile_service.apply_decay s) :=
  ⟨foldl_apply_event_nonneg events s0 h, apply_decay_zero,
   fun s => apply_event_nonneg s _⟩

/-- Witness for C9 at score 0 and a sequence with every event kind. -/
theorem C9_risk_score_never_negative_witness :
    0 ≤ ([.inactivity_decay, .bnpl_late, .payment_participation, .bnpl_on_time,
        .loan_rejected 5] :
      List risk_profile_service.RiskEvent).foldl risk_profile_service.apply_event 0 :=
  (C9_risk_score_never_negative 0 _ (by decide)).1

namespace risk_activities

/-- Result dictionary of apply_decay. -/
structure DecayResult where
  users_affected : ℕ
  total_decay_points : ℕ
  completed : Bool
deriving Repr, DecidableEq

/-- Embeds the loop body of apply_decay (risk_activities.py, lines 46-50): the
profile of the current user is decayed through the service, and affected_count
and total_decay are incremented unconditionally (total_decay by the constant
DECAY_AMOUNT 2), with no check of whether the score actually decreased. -/
def decay_step (acc : (String → ℤ) × ℕ × ℕ) (uid : String) :
    (String → ℤ) × ℕ × ℕ :=
  (fun u => if u = uid then risk_profile_service.apply_decay (acc.1 u) else acc.1 u,
   acc.2.1 + 1, acc.2.2 + 2)

/-- Embeds apply_decay (risk_activities.py, lines 30-63): folds the loop body
over user_ids starting from the stored profiles and zero counters, and returns
the updated profiles with users_affected, total_decay_points and completed. -/
def apply_decay (profiles : String → ℤ) (user_ids : List String) :
    (String → ℤ) × DecayResult :=
  let r := user_ids.foldl decay_step (profiles, 0, 0)
  (r.1, ⟨r.2.1, r.2.2, true⟩)

end risk_activities

lemma foldl_decay_step_counts (ids : List String) :
    ∀ st : (String → ℤ) × ℕ × ℕ,
      (ids.foldl risk_activities.decay_step st).2.1 = st.2.1 + ids.length
      ∧ (ids.foldl risk_activities.decay_step st).2.2 = st.2.2 + 2 * ids.length := by
  induction ids with
  | nil => intro st; simp
  | cons uid rest ih =>
    intro st
    have h := ih (risk_activities.decay_step st uid)
    constructor
    · rw [List.foldl_cons, h.1]
      simp only [risk_activities.decay_step, List.length_cons]
      omega
    · rw [List.foldl_cons, h.2]
      simp only [risk_activities.decay_step, List.length_cons]
      omega

/-- C10: for every profile store and every list of user ids passed to the decay
activity, the result reports users_affected equal to the length of the input
list and total_decay_points equal to 2 times that length, independently of the
stored scores; a user whose score is already 0, for whom the decay itself is a
no-op, is still included in both counts. -/
theorem C10_decay_counts_all_users (profiles : String → ℤ) (ids : List String) :
    ((risk_activities.apply_decay profiles ids).2.users_affected = ids.length)
    ∧ ((risk_activities.apply_decay profiles ids).2.total_decay_points
        = 2 * ids.length)
    ∧ ((risk_activities.apply_decay profiles ids).2.completed = true)
    ∧ ((risk_activities.apply_decay (fun _ => 0) ["u1"]).1 "u1" = 0)
    ∧ ((risk_activities.apply_decay (fun _ => 0) ["u1"]).2 = ⟨1, 2, true⟩) := by
  have h := foldl_decay_step_counts ids (profiles, 0, 0)
  refine ⟨?_, ?_, rfl, ?_, ?_⟩
  · unfold risk_activities.apply_decay
    simp only [h.1]
    omega
  · unfold risk_activities.apply_decay
    simp only [h.2]
    omega
  · simp [risk_activities.apply_decay, risk_activities.decay_step, apply_decay_zero]
  · rfl
